import Mathlib

/-!
Shallow embedding of `src/task3b/build_task3b.py`, the artist trajectory
forecasting and clustering pipeline of the repository.

Modelling conventions: Python floats are modelled by `ℚ` (every numeric
computation of the script is a field computation, exact over `ℚ`); Python
sets of node ids by `Finset ℕ`; Python dictionaries by association lists or
lookup functions; a Python exception by `Option`/`Except`.  The external
scikit-learn calls (k-means, silhouette) are modelled as an opaque oracle
record: the selection logic that consumes their outputs is embedded exactly.
-/

/-! ### `parse_year` (build_task3b.py lines 31-37) -/

/-- Digit-string tail of Python `int(...)` parsing: consumes ASCII digits with
single underscores allowed between digits, accumulating the value. -/
def digitsAfter : ℕ → List Char → Option ℕ
  | acc, [] => some acc
  | acc, '_' :: c :: cs =>
      if c.isDigit then digitsAfter (acc * 10 + (c.toNat - 48)) cs else none
  | _, ['_'] => none
  | acc, c :: cs =>
      if c.isDigit then digitsAfter (acc * 10 + (c.toNat - 48)) cs else none

/-- Unsigned body of Python `int(...)`: at least one digit, underscores only
between digits. -/
def pyIntCore : List Char → Option ℕ
  | [] => none
  | c :: cs => if c.isDigit then digitsAfter (c.toNat - 48) cs else none

/-- Surrounding-whitespace strip on a character list (the stripping Python
`int(...)` applies to its string argument). -/
def trimWS (cs : List Char) : List Char :=
  ((cs.dropWhile Char.isWhitespace).reverse.dropWhile Char.isWhitespace).reverse

/-- Python `int(s)` for a character list (ASCII model): surrounding whitespace
is stripped, an optional single sign is allowed, then digits with underscores
between them.  `none` models the `ValueError` raised on anything else. -/
def pyInt (cs : List Char) : Option ℤ :=
  match trimWS cs with
  | '+' :: rest => (pyIntCore rest).map (fun n => (n : ℤ))
  | '-' :: rest => (pyIntCore rest).map (fun n => -(n : ℤ))
  | rest => (pyIntCore rest).map (fun n => (n : ℤ))

/-- `parse_year` from the script: `None` maps to `None`; otherwise
`int(str(value)[:4])`, with any parse failure recovered as `None`.  The slice
`[:4]` is the first four characters of the string. -/
def parse_year (value : Option String) : Option ℤ :=
  value.bind (fun s => pyInt (s.data.take 4))

/-! ### `linear_forecast` (build_task3b.py lines 40-57) -/

/-- Least-squares fit of `y = slope * x + intercept`, the exact-arithmetic
content of `np.linalg.lstsq` on the 2-column design matrix `[x, 1]`.
When the design matrix has full rank (the x-values are not all equal) this is
the unique ordinary-least-squares solution; when all x-values coincide (rank
one) it is the minimum-norm least-squares solution that `lstsq` returns. -/
def lstsqFit (xs ys : List ℚ) : ℚ × ℚ :=
  let n : ℚ := xs.length
  let sx := xs.sum
  let sy := ys.sum
  let sxx := (xs.map (fun v => v * v)).sum
  let sxy := (List.zipWith (· * ·) xs ys).sum
  let den := n * sxx - sx * sx
  if den = 0 then
    let c := xs.headD 0
    (c * sy / (n * (c * c + 1)), sy / (n * (c * c + 1)))
  else
    let slope := (n * sxy - sx * sy) / den
    (slope, (sy - slope * sx) / n)

/-- `linear_forecast(years, values, pred_year)`: returns
`(predicted, last_value, delta)`.  `none` models the exception `np.linalg.lstsq`
raises when the two arrays have different lengths (unreachable from the
pipeline, which always passes parallel lists). -/
def linear_forecast (years values : List ℚ) (predYear : ℚ) :
    Option (ℚ × ℚ × ℚ) :=
  if years.length < 2 then
    some (values.getLastD 0, values.getLastD 0, 0)
  else if values.length = years.length then
    let fit := lstsqFit years values
    let pred0 := fit.1 * predYear + fit.2
    let lastVal := values.getLastD 0
    let pred := max pred0 lastVal
    some (pred, lastVal, max (pred - lastVal) 0)
  else none

/-! ### Silhouette adjustment and cluster-count selection
(build_task3b.py lines 286-333) -/

/-- Adjustment of a raw silhouette score by the reference-artist ("Sailor
Shift") cluster size, lines 306-315: `penalty = min(0.2, 0.01 * max(size-1, 0))`,
`adj = raw * (1 - penalty)`, and a `* 1.1` bonus when the size is exactly 1.
`none` for the size means the reference artist is absent (`sailor_idx is None`)
and the score is left unchanged. -/
def adjustSil (silRaw : ℚ) (sailorSize : Option ℕ) : ℚ :=
  match sailorSize with
  | none => silRaw
  | some sz =>
      let penalty := min (1 / 5 : ℚ) ((1 / 100 : ℚ) * ((sz - 1 : ℕ) : ℚ))
      let adj := silRaw * (1 - penalty)
      if sz = 1 then adj * (11 / 10) else adj

/-- Selection state: `(best_k, best_sil, best_k_ge3, best_sil_ge3)`. -/
abbrev SelState := ℕ × ℚ × Option ℕ × ℚ

/-- One iteration of the best-k tracking loop (lines 324-329): update the
unrestricted best and the `k ≥ 3`-restricted best, both by strict improvement. -/
def selStep (st : SelState) (p : ℕ × ℚ) : SelState :=
  let bk := if st.2.1 < p.2 then p.1 else st.1
  let bs := if st.2.1 < p.2 then p.2 else st.2.1
  let st3 : Option ℕ × ℚ :=
    if 3 ≤ p.1 ∧ st.2.2.2 < p.2 then (some p.1, p.2) else st.2.2
  (bk, bs, st3)

/-- The cluster-count choice from the per-candidate adjusted scores: fold the
tracking loop from `best_k = 2`, `best_sil = -1.0`, `best_k_ge3 = None`,
`best_sil_ge3 = -1.0`, then override the unrestricted best with the
`k ≥ 3`-restricted best when the latter was ever set (lines 331-333). -/
def selectK (scores : List (ℕ × ℚ)) : ℕ :=
  let st := scores.foldl selStep (2, -1, none, -1)
  match st.2.2.1 with
  | some k => k
  | none => st.1

/-! ### `normalize_metric` (build_task3b.py lines 243-251) -/

/-- Python `min(l)` with a default for the empty list (on which Python raises;
all uses in the script are on non-empty lists). -/
def minD {α : Type} [LinearOrder α] (l : List α) (d : α) : α :=
  match l with
  | [] => d
  | x :: xs => xs.foldl min x

/-- Python `max(l)` with a default for the empty list. -/
def maxD {α : Type} [LinearOrder α] (l : List α) (d : α) : α :=
  match l with
  | [] => d
  | x :: xs => xs.foldl max x

/-- `normalize_metric`: min-max normalization of the listed raw values (the
script returns a name-keyed dict; the model keeps the population order).
All values map to `0.0` when `max - min == 0`, otherwise `x ↦ (x-min)/(max-min)`. -/
def normalize_metric (values : List ℚ) : List ℚ :=
  let mn := minD values 0
  let mx := maxD values 0
  if mx - mn = 0 then values.map (fun _ => 0)
  else values.map (fun x => (x - mn) / (mx - mn))

/-! ### Clustering step (build_task3b.py lines 271-342)

The scikit-learn calls (`KMeans.fit_predict`, `silhouette_score`) are external
collaborators; they are modelled as an oracle record.  The selection logic
consuming their outputs is embedded exactly. -/

/-- External clustering collaborator: `labels k` models
`KMeans(n_clusters=k, n_init=10, random_state=42).fit_predict(features)`,
`sil k ls` models `silhouette_score(features, ls)` with the `ValueError`
recovery to `-1.0` already applied, and `final k` models the
`n_init=20` re-run used for the reported partition. -/
structure ClusterOracle where
  labels : ℕ → List ℕ
  sil : ℕ → List ℕ → ℚ
  final : ℕ → List ℕ

/-- Size of the reference artist's cluster: `sizes[labels[sailor_idx]]`,
i.e. the number of labels equal to the label at the reference index;
`none` when `sailor_idx is None`. -/
def sailorSize (idx : Option ℕ) (ls : List ℕ) : Option ℕ :=
  idx.map (fun i => ls.count (ls.getD i 0))

/-- Candidate cluster counts `range(2, max_k + 1)`. -/
def kCandidates (maxK : ℕ) : List ℕ :=
  (List.range (maxK - 1)).map (fun j => j + 2)

/-- The clustering step of `main` for a population of size `n`: when `n ≥ 3`,
score every candidate `k`, pick `best_k` via `selectK`, and report the final
k-means labels shifted to 1-based; when `n < 3` the step is skipped and the
labels are `np.zeros(n) + 1`. -/
def clusterStep (n : ℕ) (sailorIdx : Option ℕ) (o : ClusterOracle) :
    ℕ × List ℕ :=
  if 3 ≤ n then
    let maxK := min 8 (max 2 (n - 1))
    let scores := (kCandidates maxK).map (fun k =>
      (k, adjustSil (o.sil k (o.labels k)) (sailorSize sailorIdx (o.labels k))))
    let bestK := selectK scores
    (bestK, (o.final bestK).map (fun l => l + 1))
  else
    (2, (List.replicate n 0).map (fun l => l + 1))

/-! ### Graph model and the credit-extraction part of `main`
(build_task3b.py lines 60-154, 169-189) -/

/-- A graph node: the fields of the JSON node records that the script reads.
`genre`, `name`, `notable` and `releaseDate` are optional (`dict.get`). -/
structure Node where
  id : ℕ
  nodeType : String
  genre : Option String
  name : Option String
  notable : Option Bool
  releaseDate : Option String
deriving DecidableEq, Repr

/-- A graph edge: `Edge Type`, `source`, `target`. -/
structure Edge where
  edgeType : String
  source : ℕ
  target : ℕ
deriving DecidableEq, Repr

/-- The input graph document. -/
structure Graph where
  nodes : List Node
  edges : List Edge
deriving DecidableEq, Repr

/-- `CREATIVE_EDGES`. -/
def creativeEdgeTypes : List String :=
  ["PerformerOf", "ProducerOf", "ComposerOf", "LyricistOf"]

/-- `ARTIST_TYPES`. -/
def artistTypes : List String := ["Person", "MusicalGroup"]

/-- `WORK_TYPES`. -/
def workTypes : List String := ["Song", "Album"]

/-- The node index `nodes = {node["id"]: node for node in graph["nodes"]}`:
on duplicate ids the dict keeps the last record. -/
def findNode (ns : List Node) (i : ℕ) : Option Node :=
  ns.reverse.find? (fun n => n.id == i)

/-- `(node.get("genre") or "").strip().lower() == TARGET_GENRE`. -/
def genreIsTarget (g : Option String) : Bool :=
  ((trimWS (g.getD "").data).map Char.toLower) = "oceanus folk".data

/-- Membership of a node record in `oceanus_works`. -/
def isOceanusWorkNode (n : Node) : Bool :=
  workTypes.contains n.nodeType && genreIsTarget n.genre

/-- Guard of the `artists_with_oceanus` loop (lines 77-87). -/
def keepOceanus (ns : List Node) (e : Edge) : Bool :=
  creativeEdgeTypes.contains e.edgeType &&
    match findNode ns e.source, findNode ns e.target with
    | some s, some t => artistTypes.contains s.nodeType && isOceanusWorkNode t
    | _, _ => false

/-- `artists_with_oceanus` (kept as a list; only membership is used). -/
def artistsWithOceanus (g : Graph) : List ℕ :=
  (g.edges.filter (keepOceanus g.nodes)).map Edge.source

/-- Guard of the `work_to_people` loop (lines 91-102). -/
def keepPeople (ns : List Node) (e : Edge) : Bool :=
  creativeEdgeTypes.contains e.edgeType &&
    match findNode ns e.source, findNode ns e.target with
    | some s, some t => (s.nodeType == "Person") && workTypes.contains t.nodeType
    | _, _ => false

/-- `work_to_people[w]`: the set of person ids credited on work `w`. -/
def workToPeople (g : Graph) (w : ℕ) : Finset ℕ :=
  ((g.edges.filter (fun e => keepPeople g.nodes e && (e.target == w))).map
    Edge.source).toFinset

/-- A `credits` row (lines 121-129). -/
structure Credit where
  artistId : ℕ
  artist : Option String
  workId : ℕ
  notable : Bool
  releaseDate : Option String
deriving DecidableEq, Repr

/-- Guard of the `credits` loop (lines 106-118). -/
def keepCredit (ns : List Node) (arts : List ℕ) (e : Edge) : Bool :=
  creativeEdgeTypes.contains e.edgeType && arts.contains e.source &&
    match findNode ns e.source, findNode ns e.target with
    | some s, some t =>
        artistTypes.contains s.nodeType && workTypes.contains t.nodeType
    | _, _ => false

/-- Build one `credits` row from an edge that passed `keepCredit`. -/
def mkCredit (ns : List Node) (e : Edge) : Credit :=
  { artistId := e.source
    artist := (findNode ns e.source).bind Node.name
    workId := e.target
    notable := ((findNode ns e.target).bind Node.notable).getD false
    releaseDate := (findNode ns e.target).bind Node.releaseDate }

/-- The `credits` list of `main`. -/
def credits (g : Graph) : List Credit :=
  (g.edges.filter (keepCredit g.nodes (artistsWithOceanus g))).map
    (mkCredit g.nodes)

/-! ### Trajectory construction (build_task3b.py lines 131-189) -/

/-- Word splitting of Python `str.split()`: whitespace runs separate words,
empty words are dropped.  First argument is the (reversed) current word. -/
def wordsAux : List Char → List Char → List (List Char)
  | buf, [] => if buf = [] then [] else [buf.reverse]
  | buf, c :: cs =>
      if c.isWhitespace then
        if buf = [] then wordsAux [] cs else buf.reverse :: wordsAux [] cs
      else wordsAux (c :: buf) cs

/-- `" ".join(words)`. -/
def joinSpace : List (List Char) → List Char
  | [] => []
  | [w] => w
  | w :: ws => w ++ ' ' :: joinSpace ws

/-- `" ".join(str(artist_name).split())`: collapse internal whitespace. -/
def normName (s : String) : String :=
  ⟨joinSpace (wordsAux [] s.data)⟩

/-- One row of `artist_year` bookkeeping: normalized artist name, parsed
release year, and the originating credit. -/
structure Row where
  name : String
  year : ℤ
  credit : Credit
deriving DecidableEq, Repr

/-- The credit rows that enter `artist_year` (lines 136-150): release year
parseable and artist name truthy (neither `None` nor the empty string). -/
def datedRows (cs : List Credit) : List Row :=
  cs.filterMap (fun c =>
    match parse_year c.releaseDate, c.artist with
    | some y, some nm => if nm = "" then none else some ⟨normName nm, y, c⟩
    | _, _ => none)

/-- One `artist_year[name][year]` bucket, by set sizes:
`works`, `notable`, `collabs`. -/
structure Bucket where
  releases : ℕ
  notableCount : ℕ
  collabs : ℕ
deriving DecidableEq, Repr

/-- The bucket for `(name, year)` built from the rows (lines 136-150):
present exactly when some row matches; `works` and `notable` collect work ids,
`collabs` unions `work_to_people[work_id] - {artist_id}` over the rows. -/
def yearlyOf (w2p : ℕ → Finset ℕ) (rows : List Row) (nm : String) (y : ℤ) :
    Option Bucket :=
  let sel := rows.filter (fun r => r.name == nm && r.year == y)
  if sel.isEmpty then none
  else some
    { releases := (sel.map (fun r => r.credit.workId)).toFinset.card
      notableCount :=
        ((sel.filter (fun r => r.credit.notable)).map
          (fun r => r.credit.workId)).toFinset.card
      collabs :=
        (sel.foldr
          (fun r acc => acc ∪ ((w2p r.credit.workId).erase r.credit.artistId))
          ∅).card }

/-- `len(data["works"])` with the `else 0` default (lines 177-185). -/
def relOf : Option Bucket → ℕ
  | some b => b.releases
  | none => 0

/-- `len(data["collabs"])` with the `else 0` default. -/
def colOf : Option Bucket → ℕ
  | some b => b.collabs
  | none => 0

/-- `len(data["notable"])` with the `else 0` default. -/
def notOf : Option Bucket → ℕ
  | some b => b.notableCount
  | none => 0

/-- The accumulation loop of lines 172-189: `n` remaining years starting at
`y`, with the three running totals.  Each emitted point is
`(year, cum_releases, cum_collabs, cum_notable)`. -/
def buildSeriesAux (yearly : ℤ → Option Bucket) :
    ℕ → ℤ → ℕ → ℕ → ℕ → List (ℤ × ℕ × ℕ × ℕ)
  | 0, _, _, _, _ => []
  | n + 1, y, cr, cc, cn =>
      let cr := cr + relOf (yearly y)
      let cc := cc + colOf (yearly y)
      let cn := cn + notOf (yearly y)
      (y, cr, cc, cn) :: buildSeriesAux yearly n (y + 1) cr cc cn

/-- The per-artist trajectory series over `range(min_year, max_year + 1)`. -/
def buildSeries (yearly : ℤ → Option Bucket) (minY maxY : ℤ) :
    List (ℤ × ℕ × ℕ × ℕ) :=
  buildSeriesAux yearly (maxY + 1 - minY).toNat minY 0 0 0

/-- Dict-insertion-order keys: first occurrence order, as iteration over
`artist_year` yields them. -/
def insertionKeys (l : List String) : List String :=
  l.foldl (fun acc x => if x ∈ acc then acc else acc ++ [x]) []

/-- The trajectory part of `main` as a function of the credit rows and the
`work_to_people` index: raises (`Except.error`, line 154) exactly when no
credit row has a parseable year and a truthy artist name; otherwise emits,
per artist in insertion order, the cumulative series over the global year
range. -/
def pipeOut (w2p : ℕ → Finset ℕ) (cs : List Credit) :
    Except String (List (String × List (ℤ × ℕ × ℕ × ℕ))) :=
  let rows := datedRows cs
  if rows.isEmpty then Except.error "No Oceanus Folk artist data found."
  else
    let yrs := rows.map Row.year
    let minY := minD yrs 0
    let maxY := maxD yrs 0
    Except.ok ((insertionKeys (rows.map Row.name)).map
      (fun nm => (nm, buildSeries (yearlyOf w2p rows nm) minY maxY)))

/-- The pipeline from the raw graph up to the trajectory series. -/
def pipelineSeries (g : Graph) :
    Except String (List (String × List (ℤ × ℕ × ℕ × ℕ))) :=
  pipeOut (workToPeople g) (credits g)

instance decEqSeriesEntry : DecidableEq (String × List (ℤ × ℕ × ℕ × ℕ)) :=
  inferInstance

instance decEqExcept {e a : Type} [DecidableEq e] [DecidableEq a] :
    DecidableEq (Except e a) := fun x y =>
  match x, y with
  | .error u, .error v =>
      if h : u = v then isTrue (by rw [h])
      else isFalse (by intro hc; cases hc; exact h rfl)
  | .ok u, .ok v =>
      if h : u = v then isTrue (by rw [h])
      else isFalse (by intro hc; cases hc; exact h rfl)
  | .error _, .ok _ => isFalse (by intro hc; cases hc)
  | .ok _, .error _ => isFalse (by intro hc; cases hc)

/-! ### Concrete graphs used as witnesses and counterexamples -/

/-- A graph with one qualifying artist whose only credit has no release date. -/
def undatedGraph : Graph :=
  { nodes := [{ id := 0, nodeType := "Person", genre := none, name := some "A",
                notable := none, releaseDate := none },
              { id := 1, nodeType := "Song", genre := some "Oceanus Folk",
                name := none, notable := none, releaseDate := none }]
    edges := [{ edgeType := "PerformerOf", source := 0, target := 1 }] }

/-- Nodes of a minimal well-formed graph: one person, one dated notable
Oceanus Folk song. -/
def okNodes : List Node :=
  [{ id := 0, nodeType := "Person", genre := none, name := some "A",
     notable := none, releaseDate := none },
   { id := 1, nodeType := "Song", genre := some "Oceanus Folk",
     name := none, notable := some true, releaseDate := some "2020-01-01" }]

/-- The minimal well-formed graph. -/
def goodGraph : Graph :=
  { nodes := okNodes
    edges := [{ edgeType := "PerformerOf", source := 0, target := 1 }] }

/-- The same graph with an extra creative edge onto the non-existent node 99. -/
def danglingGraph : Graph :=
  { nodes := okNodes
    edges := [{ edgeType := "PerformerOf", source := 0, target := 1 },
              { edgeType := "PerformerOf", source := 0, target := 99 }] }

/-! ### Helper lemmas about `minD` and `maxD` -/

lemma foldl_min_le_init {α : Type} [LinearOrder α] :
    ∀ (l : List α) (a : α), l.foldl min a ≤ a := by
  intro l
  induction l with
  | nil => intro a; exact le_refl a
  | cons x xs ih =>
      intro a
      exact le_trans (ih (min a x)) (min_le_left a x)

lemma foldl_min_le_mem {α : Type} [LinearOrder α] :
    ∀ (l : List α) (a x : α), x ∈ l → l.foldl min a ≤ x := by
  intro l
  induction l with
  | nil => intro a x hx; cases hx
  | cons y ys ih =>
      intro a x hx
      rcases List.mem_cons.mp hx with h | h
      · subst h
        exact le_trans (foldl_min_le_init ys (min a x)) (min_le_right a x)
      · exact ih (min a y) x h

lemma foldl_min_attained {α : Type} [LinearOrder α] :
    ∀ (l : List α) (a : α), l.foldl min a = a ∨ l.foldl min a ∈ l := by
  intro l
  induction l with
  | nil => intro a; exact Or.inl rfl
  | cons y ys ih =>
      intro a
      rcases ih (min a y) with h | h
      · rcases min_choice a y with hm | hm
        · exact Or.inl (h.trans hm)
        · exact Or.inr (List.mem_cons.mpr (Or.inl (h.trans hm)))
      · exact Or.inr (List.mem_cons.mpr (Or.inr h))

lemma minD_le {α : Type} [LinearOrder α] (l : List α) (d : α) (x : α)
    (hx : x ∈ l) : minD l d ≤ x := by
  cases l with
  | nil => cases hx
  | cons y ys =>
      rcases List.mem_cons.mp hx with h | h
      · subst h; exact foldl_min_le_init ys x
      · exact foldl_min_le_mem ys y x h

lemma minD_mem {α : Type} [LinearOrder α] (l : List α) (d : α)
    (hne : l ≠ []) : minD l d ∈ l := by
  cases l with
  | nil => exact absurd rfl hne
  | cons y ys =>
      rcases foldl_min_attained ys y with h | h
      · exact List.mem_cons.mpr (Or.inl h)
      · exact List.mem_cons.mpr (Or.inr h)

lemma init_le_foldl_max {α : Type} [LinearOrder α] :
    ∀ (l : List α) (a : α), a ≤ l.foldl max a := by
  intro l
  induction l with
  | nil => intro a; exact le_refl a
  | cons x xs ih =>
      intro a
      exact le_trans (le_max_left a x) (ih (max a x))

lemma mem_le_foldl_max {α : Type} [LinearOrder α] :
    ∀ (l : List α) (a x : α), x ∈ l → x ≤ l.foldl max a := by
  intro l
  induction l with
  | nil => intro a x hx; cases hx
  | cons y ys ih =>
      intro a x hx
      rcases List.mem_cons.mp hx with h | h
      · subst h
        exact le_trans (le_max_right a x) (init_le_foldl_max ys (max a x))
      · exact ih (max a y) x h

lemma foldl_max_attained {α : Type} [LinearOrder α] :
    ∀ (l : List α) (a : α), l.foldl max a = a ∨ l.foldl max a ∈ l := by
  intro l
  induction l with
  | nil => intro a; exact Or.inl rfl
  | cons y ys ih =>
      intro a
      rcases ih (max a y) with h | h
      · rcases max_choice a y with hm | hm
        · exact Or.inl (h.trans hm)
        · exact Or.inr (List.mem_cons.mpr (Or.inl (h.trans hm)))
      · exact Or.inr (List.mem_cons.mpr (Or.inr h))

lemma le_maxD {α : Type} [LinearOrder α] (l : List α) (d : α) (x : α)
    (hx : x ∈ l) : x ≤ maxD l d := by
  cases l with
  | nil => cases hx
  | cons y ys =>
      rcases List.mem_cons.mp hx with h | h
      · subst h; exact init_le_foldl_max ys x
      · exact mem_le_foldl_max ys y x h

lemma maxD_mem {α : Type} [LinearOrder α] (l : List α) (d : α)
    (hne : l ≠ []) : maxD l d ∈ l := by
  cases l with
  | nil => exact absurd rfl hne
  | cons y ys =>
      rcases foldl_max_attained ys y with h | h
      · exact List.mem_cons.mpr (Or.inl h)
      · exact List.mem_cons.mpr (Or.inr h)

/-! ### Claim theorems -/

/-- C10: `parse_year` never raises (it is a total function in this model): it
returns `none` for `None` input, its result depends only on the first four
characters of the string, `"2020-garbage"` parses to `2020`, the short string
`"45"` parses to `45`, and `"20X0-01-01"` fails to `none`. -/
theorem claim_C10 :
    parse_year none = none ∧
    (∀ s t : String, s.data.take 4 = t.data.take 4 →
      parse_year (some s) = parse_year (some t)) ∧
    parse_year (some "2020-garbage") = some 2020 ∧
    parse_year (some "45") = some 45 ∧
    parse_year (some "20X0-01-01") = none := by
  refine ⟨rfl, ?_, by decide, by decide, by decide⟩
  intro s t h
  show pyInt (List.take 4 s.data) = pyInt (List.take 4 t.data)
  rw [h]

/-- Witness for C10: the four-character-prefix conjunct at concrete strings. -/
theorem claim_C10_witness :
    "2020-garbage".data.take 4 = "2020-other".data.take 4 ∧
    parse_year (some "2020-garbage") = parse_year (some "2020-other") :=
  ⟨by decide, claim_C10.2.1 "2020-garbage" "2020-other" (by decide)⟩

/-- C1: every successful result of `linear_forecast` satisfies the floor
invariant: `predicted ≥ current` and `delta = max(predicted - current, 0) ≥ 0`,
for every input window and target year, regardless of the fitted slope. -/
theorem claim_C1 (years values : List ℚ) (predYear : ℚ) (p c d : ℚ)
    (h : linear_forecast years values predYear = some (p, c, d)) :
    c ≤ p ∧ d = max (p - c) 0 ∧ 0 ≤ d := by
  unfold linear_forecast at h
  split at h
  · simp only [Option.some.injEq, Prod.mk.injEq] at h
    obtain ⟨h1, h2, h3⟩ := h
    subst h1; subst h2; subst h3
    simp
  · split at h
    · simp only [Option.some.injEq, Prod.mk.injEq] at h
      obtain ⟨h1, h2, h3⟩ := h
      subst h1; subst h2; subst h3
      exact ⟨le_max_right _ _, rfl, le_max_right _ _⟩
    · exact absurd h (by simp)

/-- Witness for C1 at the window `years=[0,1]`, `values=[1,2]`, target `2`. -/
theorem claim_C1_witness :
    linear_forecast [0, 1] [1, 2] 2 = some (3, 2, 1) ∧
    (2 : ℚ) ≤ 3 ∧ (1 : ℚ) = max (3 - 2) 0 ∧ (0 : ℚ) ≤ 1 :=
  ⟨by norm_num [linear_forecast, lstsqFit],
   claim_C1 [0, 1] [1, 2] 2 3 2 1 (by norm_num [linear_forecast, lstsqFit])⟩

/-- Counterexample to C7 as stated: the window `years=[2020,2020]` has fewer
than 2 distinct points (both entries equal 2020), yet `linear_forecast` does
perform a (rank-deficient minimum-norm) fit and does not return
`(last, last, 0) = (1, 1, 0)`: the fitted value `≈ 2.005` exceeds the last
observed value `1`, giving a positive delta. -/
theorem claim_C7_counterexample :
    (∀ x ∈ [(2020 : ℚ), 2020], x = 2020) ∧
    linear_forecast [2020, 2020] [3, 1] 2025 ≠ some (1, 1, 0) := by
  constructor
  · intro x hx
    simp only [List.mem_cons, List.not_mem_nil, or_false] at hx
    rcases hx with h | h <;> exact h
  · norm_num [linear_forecast, lstsqFit]

/-- C7 amended: the degenerate branch triggers on fewer than 2 points
(`len(years) < 2`, regardless of distinctness), in which case no fit is
performed and the result is `(last, last, 0)` — `(0, 0, 0)` on the empty
window; and for parallel lists (equal lengths, the function's calling
convention) `linear_forecast` never raises. -/
theorem claim_C7_amended :
    (∀ (years values : List ℚ) (py : ℚ), years.length < 2 →
        linear_forecast years values py =
          some (values.getLastD 0, values.getLastD 0, 0)) ∧
    (∀ (years values : List ℚ) (py : ℚ), values.length = years.length →
        (linear_forecast years values py).isSome = true) ∧
    linear_forecast [] [] 0 = some (0, 0, 0) := by
  refine ⟨?_, ?_, by norm_num [linear_forecast]⟩
  · intro ys vs py h
    simp [linear_forecast, h]
  · intro ys vs py h
    by_cases hl : ys.length < 2 <;> simp [linear_forecast, hl, h]

/-- Witness for C7 amended: the singleton window and a parallel-lists call. -/
theorem claim_C7_amended_witness :
    ([(5 : ℚ)].length < 2 ∧
      linear_forecast [5] [7] 0 = some (7, 7, 0)) ∧
    ([(3 : ℚ), 4].length = [(2020 : ℚ), 2021].length ∧
      (linear_forecast [2020, 2021] [3, 4] 2026).isSome = true) :=
  ⟨⟨by norm_num, claim_C7_amended.1 [5] [7] 0 (by norm_num)⟩,
   ⟨by norm_num, claim_C7_amended.2.1 [2020, 2021] [3, 4] 2026 (by norm_num)⟩⟩

/-- Counterexample to C3 as stated: for the raw silhouette value `-1.0`
(reachable: the `ValueError` recovery sets `sil_raw = -1.0`) and a reference
cluster of size 2, the "penalty" multiplies a negative score by `0.99` and so
increases it: the adjusted score is not `≤` the raw score. -/
theorem claim_C3_counterexample : ¬ adjustSil (-1) (some 2) ≤ -1 := by
  norm_num [adjustSil]

/-- C3 amended: for nonnegative raw silhouette values the claim holds — a
cluster of size `> 1` can only lower the score and a singleton cluster can
only raise it; for nonpositive raw values both inequalities reverse. -/
theorem claim_C3_amended (raw : ℚ) (sz : ℕ) :
    (0 ≤ raw → (1 < sz → adjustSil raw (some sz) ≤ raw) ∧
               (sz = 1 → raw ≤ adjustSil raw (some sz))) ∧
    (raw ≤ 0 → (1 < sz → raw ≤ adjustSil raw (some sz)) ∧
               (sz = 1 → adjustSil raw (some sz) ≤ raw)) := by
  by_cases h1 : sz = 1
  · subst h1
    simp only [adjustSil, if_pos rfl]
    norm_num
    constructor <;> intro hr <;> nlinarith
  · have hpen0 : (0 : ℚ) ≤ min (1 / 5) ((1 / 100) * ((sz - 1 : ℕ) : ℚ)) :=
      le_min (by norm_num) (by positivity)
    have hpen1 : min (1 / 5 : ℚ) ((1 / 100) * ((sz - 1 : ℕ) : ℚ)) ≤ 1 / 5 :=
      min_le_left _ _
    simp only [adjustSil, if_neg h1]
    constructor <;> intro hr
    · refine ⟨fun _ => ?_, fun h => absurd h h1⟩
      nlinarith
    · refine ⟨fun _ => ?_, fun h => absurd h h1⟩
      nlinarith

/-- Witness for C3 amended: raw score `1`, reference cluster size `2`. -/
theorem claim_C3_amended_witness :
    (0 : ℚ) ≤ 1 ∧ 1 < 2 ∧ adjustSil 1 (some 2) ≤ 1 :=
  ⟨by norm_num, by norm_num, ((claim_C3_amended 1 2).1 (by norm_num)).1 (by norm_num)⟩

/-- C6: `normalize_metric` maps each raw value to `(x - min) / (max - min)`;
every normalized value lies in `[0, 1]`; when the raw values are not all equal
some artist maps to `0.0` and some to `1.0`; when they are all equal every
artist maps to exactly `0.0`. -/
theorem claim_C6 (values : List ℚ) (hne : values ≠ []) :
    (∀ y ∈ normalize_metric values, 0 ≤ y ∧ y ≤ 1) ∧
    ((∃ a ∈ values, ∃ b ∈ values, a ≠ b) →
      (0 : ℚ) ∈ normalize_metric values ∧ (1 : ℚ) ∈ normalize_metric values) ∧
    ((∀ a ∈ values, ∀ b ∈ values, a = b) →
      normalize_metric values = values.map (fun _ => 0)) := by
  by_cases h : maxD values 0 - minD values 0 = 0
  · refine ⟨?_, ?_, ?_⟩
    · intro y hy
      simp only [normalize_metric, if_pos h, List.mem_map] at hy
      obtain ⟨x, _, hx⟩ := hy
      subst hx
      norm_num
    · rintro ⟨a, ha, b, hb, hab⟩
      exfalso
      have h1 : minD values 0 ≤ a := minD_le values 0 a ha
      have h2 : a ≤ maxD values 0 := le_maxD values 0 a ha
      have h3 : minD values 0 ≤ b := minD_le values 0 b hb
      have h4 : b ≤ maxD values 0 := le_maxD values 0 b hb
      exact hab (by linarith)
    · intro _
      simp only [normalize_metric, if_pos h]
  · have hmn : minD values 0 ∈ values := minD_mem values 0 hne
    have hmx : maxD values 0 ∈ values := maxD_mem values 0 hne
    have hle : minD values 0 ≤ maxD values 0 := minD_le values 0 _ hmx
    have hlt : minD values 0 < maxD values 0 :=
      lt_of_le_of_ne hle (fun he => h (by rw [he]; ring))
    have hpos : 0 < maxD values 0 - minD values 0 := by linarith
    refine ⟨?_, ?_, ?_⟩
    · intro y hy
      simp only [normalize_metric, if_neg h, List.mem_map] at hy
      obtain ⟨x, hxmem, hx⟩ := hy
      subst hx
      have hx1 : minD values 0 ≤ x := minD_le values 0 x hxmem
      have hx2 : x ≤ maxD values 0 := le_maxD values 0 x hxmem
      constructor
      · exact div_nonneg (by linarith) (le_of_lt hpos)
      · rw [div_le_one hpos]; linarith
    · intro _
      constructor
      · simp only [normalize_metric, if_neg h, List.mem_map]
        exact ⟨minD values 0, hmn, by field_simp⟩
      · simp only [normalize_metric, if_neg h, List.mem_map]
        exact ⟨maxD values 0, hmx, div_self (by linarith)⟩
    · intro hall
      exact absurd (hall _ hmx _ hmn) (fun he => h (by rw [he]; ring))

/-- Witness for C6 on the population `[0, 1]`. -/
theorem claim_C6_witness :
    ([(0 : ℚ), 1] ≠ []) ∧
    ((∀ y ∈ normalize_metric [(0 : ℚ), 1], 0 ≤ y ∧ y ≤ 1) ∧
      ((∃ a ∈ [(0 : ℚ), 1], ∃ b ∈ [(0 : ℚ), 1], a ≠ b) →
        (0 : ℚ) ∈ normalize_metric [(0 : ℚ), 1] ∧
        (1 : ℚ) ∈ normalize_metric [(0 : ℚ), 1]) ∧
      ((∀ a ∈ [(0 : ℚ), 1], ∀ b ∈ [(0 : ℚ), 1], a = b) →
        normalize_metric [(0 : ℚ), 1] = [(0 : ℚ), 1].map (fun _ => 0))) :=
  ⟨by simp, claim_C6 [0, 1] (by simp)⟩

/-! ### Characterization of `buildSeries` -/

lemma buildSeriesAux_eq (yearly : ℤ → Option Bucket) :
    ∀ (n : ℕ) (y : ℤ) (cr cc cn : ℕ),
      buildSeriesAux yearly n y cr cc cn =
        (List.range n).map (fun (i : ℕ) =>
          (y + (i : ℤ),
           cr + ∑ j in Finset.range (i + 1), relOf (yearly (y + (j : ℤ))),
           cc + ∑ j in Finset.range (i + 1), colOf (yearly (y + (j : ℤ))),
           cn + ∑ j in Finset.range (i + 1), notOf (yearly (y + (j : ℤ))))) := by
  intro n
  induction n with
  | zero => intro y cr cc cn; rfl
  | succ m ih =>
      intro y cr cc cn
      rw [List.range_succ_eq_map, List.map_cons, List.map_map]
      show (y, cr + relOf (yearly y), cc + colOf (yearly y),
              cn + notOf (yearly y)) ::
            buildSeriesAux yearly m (y + 1) (cr + relOf (yearly y))
              (cc + colOf (yearly y)) (cn + notOf (yearly y)) = _
      congr 1
      · simp
      · rw [ih (y + 1) (cr + relOf (yearly y)) (cc + colOf (yearly y))
            (cn + notOf (yearly y))]
        apply List.map_congr_left
        intro i _
        have hsum : ∀ f : Option Bucket → ℕ,
            (∑ j in Finset.range (i + 1 + 1), f (yearly (y + (j : ℤ)))) =
              f (yearly y) +
                ∑ j in Finset.range (i + 1), f (yearly (y + 1 + (j : ℤ))) := by
          intro f
          rw [Finset.sum_range_succ']
          have hcg : ∀ j ∈ Finset.range (i + 1),
              f (yearly (y + ((j + 1 : ℕ) : ℤ))) =
                f (yearly (y + 1 + (j : ℤ))) := by
            intro j _
            congr 1
            push_cast
            ring_nf
          rw [Finset.sum_congr rfl hcg]
          simp [Nat.add_comm]
        simp only [Function.comp_apply, Prod.mk.injEq]
        refine ⟨?_, ?_, ?_, ?_⟩
        · push_cast; ring
        · rw [hsum relOf]; ring
        · rw [hsum colOf]; ring
        · rw [hsum notOf]; ring

lemma buildSeries_length (yearly : ℤ → Option Bucket) (minY maxY : ℤ) :
    (buildSeries yearly minY maxY).length = (maxY + 1 - minY).toNat := by
  rw [buildSeries, buildSeriesAux_eq]
  simp

lemma buildSeries_get (yearly : ℤ → Option Bucket) (minY maxY : ℤ) (i : ℕ)
    (hi : i < (buildSeries yearly minY maxY).length) :
    (buildSeries yearly minY maxY).get ⟨i, hi⟩ =
      (minY + (i : ℤ),
       ∑ j in Finset.range (i + 1), relOf (yearly (minY + (j : ℤ))),
       ∑ j in Finset.range (i + 1), colOf (yearly (minY + (j : ℤ))),
       ∑ j in Finset.range (i + 1), notOf (yearly (minY + (j : ℤ)))) := by
  simp only [buildSeries, buildSeriesAux_eq, List.get_eq_getElem,
    List.getElem_map, List.getElem_range, zero_add]

/-- The yearly raw-activity profile of Scenario A: one work in 2020, none in
2021, two in 2022. -/
def scenarioA : ℤ → Option Bucket := fun y =>
  if y = 2020 then some ⟨1, 0, 0⟩
  else if y = 2022 then some ⟨2, 0, 0⟩ else none

/-- C2: for any yearly-bucket profile and year range `minY ≤ maxY`, the
trajectory series has length `maxY - minY + 1`, its `i`-th entry is for year
`minY + i` (so it covers every year in the range in ascending order), each
cumulative counter equals the sum of the corresponding bucket sizes up to its
year, consecutive entries are non-decreasing in all three counters, a year
with no bucket repeats the previous totals; and on the Scenario A profile
(raw activity `[1,0,2]` over `[2020,2021,2022]`) the cumulative activity
series is `[1,1,3]`. -/
theorem claim_C2 :
    (∀ (yearly : ℤ → Option Bucket) (minY maxY : ℤ), minY ≤ maxY →
      ((buildSeries yearly minY maxY).length = (maxY - minY + 1).toNat ∧
       (∀ (i : ℕ) (hi : i < (buildSeries yearly minY maxY).length),
         ((buildSeries yearly minY maxY).get ⟨i, hi⟩).1 = minY + (i : ℤ)) ∧
       (∀ (i : ℕ) (hi : i < (buildSeries yearly minY maxY).length),
         ((buildSeries yearly minY maxY).get ⟨i, hi⟩).2.1 =
             ∑ j in Finset.range (i + 1), relOf (yearly (minY + (j : ℤ))) ∧
         ((buildSeries yearly minY maxY).get ⟨i, hi⟩).2.2.1 =
             ∑ j in Finset.range (i + 1), colOf (yearly (minY + (j : ℤ))) ∧
         ((buildSeries yearly minY maxY).get ⟨i, hi⟩).2.2.2 =
             ∑ j in Finset.range (i + 1), notOf (yearly (minY + (j : ℤ)))) ∧
       (∀ (i : ℕ) (h1 : i + 1 < (buildSeries yearly minY maxY).length)
          (h0 : i < (buildSeries yearly minY maxY).length),
         ((buildSeries yearly minY maxY).get ⟨i, h0⟩).2.1 ≤
             ((buildSeries yearly minY maxY).get ⟨i + 1, h1⟩).2.1 ∧
         ((buildSeries yearly minY maxY).get ⟨i, h0⟩).2.2.1 ≤
             ((buildSeries yearly minY maxY).get ⟨i + 1, h1⟩).2.2.1 ∧
         ((buildSeries yearly minY maxY).get ⟨i, h0⟩).2.2.2 ≤
             ((buildSeries yearly minY maxY).get ⟨i + 1, h1⟩).2.2.2) ∧
       (∀ (i : ℕ) (h1 : i + 1 < (buildSeries yearly minY maxY).length)
          (h0 : i < (buildSeries yearly minY maxY).length),
         yearly (minY + (i : ℤ) + 1) = none →
           ((buildSeries yearly minY maxY).get ⟨i + 1, h1⟩).2 =
             ((buildSeries yearly minY maxY).get ⟨i, h0⟩).2))) ∧
    (buildSeries scenarioA 2020 2022).map (fun r => r.2.1) = [1, 1, 3] := by
  constructor
  · intro yearly minY maxY _
    have hcast : ∀ i : ℕ, minY + ((i : ℤ) + 1) = minY + (((i + 1 : ℕ) : ℤ)) := by
      intro i; push_cast; ring
    refine ⟨?_, ?_, ?_, ?_, ?_⟩
    · rw [buildSeries_length]
      congr 1
      ring
    · intro i hi
      rw [buildSeries_get]
    · intro i hi
      rw [buildSeries_get]
      exact ⟨rfl, rfl, rfl⟩
    · intro i h1 h0
      rw [buildSeries_get, buildSeries_get]
      have hsub : Finset.range (i + 1) ⊆ Finset.range (i + 1 + 1) :=
        Finset.range_subset.mpr (by omega)
      exact ⟨Finset.sum_le_sum_of_subset hsub, Finset.sum_le_sum_of_subset hsub,
        Finset.sum_le_sum_of_subset hsub⟩
    · intro i h1 h0 hnone
      rw [buildSeries_get, buildSeries_get]
      have hz : ∀ f : Option Bucket → ℕ, f none = 0 →
          (∑ j in Finset.range (i + 1 + 1), f (yearly (minY + (j : ℤ)))) =
            ∑ j in Finset.range (i + 1), f (yearly (minY + (j : ℤ))) := by
        intro f hf
        rw [Finset.sum_range_succ]
        have hnone2 : yearly (minY + ((i : ℤ) + 1)) = none := by
          rw [← add_assoc]; exact hnone
        rw [← hcast i, hnone2, hf, Nat.add_zero]
      simp only [Prod.mk.injEq]
      exact ⟨hz relOf rfl, hz colOf rfl, hz notOf rfl⟩
  · decide

/-- Witness for C2 at the Scenario A profile over `[2020, 2022]`. -/
theorem claim_C2_witness :
    (2020 : ℤ) ≤ 2022 ∧
    (buildSeries scenarioA 2020 2022).length = ((2022 : ℤ) - 2020 + 1).toNat :=
  ⟨by norm_num, (claim_C2.1 scenarioA 2020 2022 (by norm_num)).1⟩

/-- A trivial clustering oracle. -/
def oracleA : ClusterOracle :=
  { labels := fun _ => [], sil := fun _ _ => 0, final := fun _ => [] }

/-- A second, different clustering oracle. -/
def oracleB : ClusterOracle :=
  { labels := fun _ => [0], sil := fun _ _ => 1, final := fun _ => [0] }

/-- C8: for a population of fewer than 3 artists the clustering step is
skipped — the result does not depend on the k-means/silhouette oracle at
all — and every artist receives cluster label `1`. -/
theorem claim_C8 (n : ℕ) (h : n < 3) (sailorIdx : Option ℕ)
    (o1 o2 : ClusterOracle) :
    clusterStep n sailorIdx o1 = clusterStep n sailorIdx o2 ∧
    (clusterStep n sailorIdx o1).2 = List.replicate n 1 := by
  have h3 : ¬ 3 ≤ n := by omega
  constructor
  · simp [clusterStep, h3]
  · simp [clusterStep, h3, List.map_replicate]

/-- Witness for C8 at population size 2 and two different oracles. -/
theorem claim_C8_witness :
    2 < 3 ∧
    clusterStep 2 none oracleA = clusterStep 2 none oracleB ∧
    (clusterStep 2 none oracleA).2 = List.replicate 2 1 :=
  ⟨by norm_num, (claim_C8 2 (by norm_num) none oracleA oracleB).1,
   (claim_C8 2 (by norm_num) none oracleA oracleB).2⟩

/-! ### Lemmas about the best-k fold -/

lemma sel_bs3_mono : ∀ (l : List (ℕ × ℚ)) (st : SelState),
    st.2.2.2 ≤ (l.foldl selStep st).2.2.2 := by
  intro l
  induction l with
  | nil => intro st; exact le_refl _
  | cons q qs ih =>
      intro st
      refine le_trans ?_ (ih (selStep st q))
      show st.2.2.2 ≤
        (if 3 ≤ q.1 ∧ st.2.2.2 < q.2 then ((some q.1 : Option ℕ), q.2)
         else st.2.2).2
      split_ifs with hc
      · exact le_of_lt hc.2
      · exact le_refl _

lemma sel_bs3_ub : ∀ (l : List (ℕ × ℚ)) (st : SelState) (p : ℕ × ℚ),
    p ∈ l → 3 ≤ p.1 → p.2 ≤ (l.foldl selStep st).2.2.2 := by
  intro l
  induction l with
  | nil => intro st p hp; cases hp
  | cons q qs ih =>
      intro st p hp h3
      rcases List.mem_cons.mp hp with he | hm
      · subst he
        refine le_trans ?_ (sel_bs3_mono qs (selStep st p))
        show p.2 ≤
          (if 3 ≤ p.1 ∧ st.2.2.2 < p.2 then ((some p.1 : Option ℕ), p.2)
           else st.2.2).2
        split_ifs with hc
        · exact le_refl _
        · rcases not_and_or.mp hc with hbad | hle
          · exact absurd h3 hbad
          · exact le_of_not_lt hle
      · exact ih (selStep st q) p hm h3

lemma sel_st3_attained : ∀ (l : List (ℕ × ℚ)) (st : SelState),
    (l.foldl selStep st).2.2 = st.2.2 ∨
      ∃ p ∈ l, 3 ≤ p.1 ∧ (l.foldl selStep st).2.2 = (some p.1, p.2) := by
  intro l
  induction l with
  | nil => intro st; exact Or.inl rfl
  | cons q qs ih =>
      intro st
      rcases ih (selStep st q) with h | ⟨p, hm, h3, hp⟩
      · by_cases hc : 3 ≤ q.1 ∧ st.2.2.2 < q.2
        · refine Or.inr ⟨q, List.mem_cons_self q qs, hc.1, ?_⟩
          rw [List.foldl_cons, h]
          show (if 3 ≤ q.1 ∧ st.2.2.2 < q.2 then ((some q.1 : Option ℕ), q.2)
            else st.2.2) = _
          rw [if_pos hc]
        · refine Or.inl ?_
          rw [List.foldl_cons, h]
          show (if 3 ≤ q.1 ∧ st.2.2.2 < q.2 then ((some q.1 : Option ℕ), q.2)
            else st.2.2) = _
          rw [if_neg hc]
      · exact Or.inr ⟨p, List.mem_cons_of_mem q hm, h3, hp⟩

/-- Counterexample to C5 as stated: with candidate scores
`[(2, 0.5), (3, -1.0)]` the `k = 3` candidate did produce a (finite) adjusted
score, namely `-1.0` — reachable as the `ValueError` recovery value with no
reference-artist adjustment — yet the strict-improvement tracking
(`sil_adj > best_sil_ge3` with `best_sil_ge3` initialized to `-1.0`) never
records it, so the reported `cluster_k` is the unrestricted best `2`, not the
best candidate in `[3, max_k]`. -/
theorem claim_C5_counterexample : selectK [(2, (1 : ℚ) / 2), (3, -1)] = 2 := by
  norm_num [selectK, selStep]

/-- C5 amended: whenever some candidate `k ≥ 3` has adjusted score strictly
above the `-1.0` sentinel, the reported cluster count is a candidate `k ≥ 3`
whose adjusted score is maximal among all candidates `k ≥ 3` — even when a
`k = 2` candidate has a strictly better adjusted score. -/
theorem claim_C5_amended (scores : List (ℕ × ℚ))
    (h : ∃ p ∈ scores, 3 ≤ p.1 ∧ (-1 : ℚ) < p.2) :
    ∃ q ∈ scores, selectK scores = q.1 ∧ 3 ≤ q.1 ∧
      ∀ p ∈ scores, 3 ≤ p.1 → p.2 ≤ q.2 := by
  obtain ⟨p0, hp0mem, hp03, hp0⟩ := h
  rcases sel_st3_attained scores (2, -1, none, -1) with hat | ⟨q, hqmem, hq3, hq⟩
  · exfalso
    have hub := sel_bs3_ub scores (2, -1, none, -1) p0 hp0mem hp03
    have h22 : (scores.foldl selStep (2, -1, none, -1)).2.2.2 = (-1 : ℚ) := by
      rw [hat]
    rw [h22] at hub
    linarith
  · have h1 : (scores.foldl selStep (2, -1, none, -1)).2.2.1 = some q.1 := by
      rw [hq]
    have h2 : (scores.foldl selStep (2, -1, none, -1)).2.2.2 = q.2 := by
      rw [hq]
    refine ⟨q, hqmem, ?_, hq3, ?_⟩
    · simp [selectK, h1]
    · intro p hp h3
      have hub := sel_bs3_ub scores (2, -1, none, -1) p hp h3
      rw [h2] at hub
      exact hub

/-- Witness for C5 amended at the scores `[(2, 0.5), (3, 0)]`. -/
theorem claim_C5_amended_witness :
    (∃ p ∈ [(2, (1 : ℚ) / 2), (3, 0)], 3 ≤ p.1 ∧ (-1 : ℚ) < p.2) ∧
    (∃ q ∈ [(2, (1 : ℚ) / 2), (3, 0)],
      selectK [(2, (1 : ℚ) / 2), (3, 0)] = q.1 ∧ 3 ≤ q.1 ∧
        ∀ p ∈ [(2, (1 : ℚ) / 2), (3, 0)], 3 ≤ p.1 → p.2 ≤ q.2) :=
  ⟨⟨(3, 0), by norm_num, by norm_num, by norm_num⟩,
   claim_C5_amended [(2, (1 : ℚ) / 2), (3, 0)]
     ⟨(3, 0), by norm_num, by norm_num, by norm_num⟩⟩

/-- Counterexample to C4 as stated: `undatedGraph` contains a qualifying
artist (id 0 has a creative credit on an Oceanus Folk song), yet the pipeline
raises (`RuntimeError`, modelled by `Except.error`) because that artist's only
credit has no parseable release year, so the trajectory population is empty. -/
theorem claim_C4_counterexample :
    artistsWithOceanus undatedGraph = [0] ∧
    (pipelineSeries undatedGraph).isOk = false :=
  ⟨by decide, by decide⟩

/-- C4 amended: the pipeline raises the hard failure if and only if no credit
row carries both a parseable release year and a truthy artist name (i.e. the
population entering trajectory construction is empty); otherwise it produces
output.  (Mere existence of a qualifying artist is not enough, as
`claim_C4_counterexample` shows.) -/
theorem claim_C4_amended (g : Graph) :
    pipelineSeries g = Except.error "No Oceanus Folk artist data found." ↔
      datedRows (credits g) = [] := by
  unfold pipelineSeries pipeOut
  by_cases h : (datedRows (credits g)).isEmpty
  · rw [if_pos h]
    simp [List.isEmpty_iff.mp h]
  · rw [if_neg h]
    constructor
    · intro hc
      exact absurd hc (by simp)
    · intro hc
      exact absurd (List.isEmpty_iff.mpr hc) h

/-! ### Dead-edge lemmas: an edge with a missing endpoint fails every guard -/

lemma keepOceanus_dead (ns : List Node) (e : Edge)
    (h : findNode ns e.source = none ∨ findNode ns e.target = none) :
    keepOceanus ns e = false := by
  unfold keepOceanus
  rcases h with h | h
  · rw [h]
    rcases findNode ns e.target with _ | t <;> simp
  · rw [h]
    rcases findNode ns e.source with _ | s <;> simp

lemma keepPeople_dead (ns : List Node) (e : Edge)
    (h : findNode ns e.source = none ∨ findNode ns e.target = none) :
    keepPeople ns e = false := by
  unfold keepPeople
  rcases h with h | h
  · rw [h]
    rcases findNode ns e.target with _ | t <;> simp
  · rw [h]
    rcases findNode ns e.source with _ | s <;> simp

lemma keepCredit_dead (ns : List Node) (arts : List ℕ) (e : Edge)
    (h : findNode ns e.source = none ∨ findNode ns e.target = none) :
    keepCredit ns arts e = false := by
  unfold keepCredit
  rcases h with h | h
  · rw [h]
    rcases findNode ns e.target with _ | t <;> simp
  · rw [h]
    rcases findNode ns e.source with _ | s <;> simp

lemma filter_middle_dead (p : Edge → Bool) (e : Edge) (es1 es2 : List Edge)
    (h : p e = false) :
    (es1 ++ e :: es2).filter p = (es1 ++ es2).filter p := by
  simp [List.filter_append, List.filter_cons, h]

lemma artistsWithOceanus_dead (ns : List Node) (e : Edge) (es1 es2 : List Edge)
    (h : findNode ns e.source = none ∨ findNode ns e.target = none) :
    artistsWithOceanus ⟨ns, es1 ++ e :: es2⟩ =
      artistsWithOceanus ⟨ns, es1 ++ es2⟩ := by
  unfold artistsWithOceanus
  dsimp only
  rw [filter_middle_dead _ _ _ _ (keepOceanus_dead ns e h)]

lemma workToPeople_dead (ns : List Node) (e : Edge) (es1 es2 : List Edge)
    (h : findNode ns e.source = none ∨ findNode ns e.target = none) (w : ℕ) :
    workToPeople ⟨ns, es1 ++ e :: es2⟩ w = workToPeople ⟨ns, es1 ++ es2⟩ w := by
  unfold workToPeople
  dsimp only
  rw [filter_middle_dead _ _ _ _ (by simp [keepPeople_dead ns e h])]

lemma credits_dead (ns : List Node) (e : Edge) (es1 es2 : List Edge)
    (h : findNode ns e.source = none ∨ findNode ns e.target = none) :
    credits ⟨ns, es1 ++ e :: es2⟩ = credits ⟨ns, es1 ++ es2⟩ := by
  unfold credits
  dsimp only
  rw [artistsWithOceanus_dead ns e es1 es2 h]
  rw [filter_middle_dead _ _ _ _
    (keepCredit_dead ns (artistsWithOceanus ⟨ns, es1 ++ es2⟩) e h)]

/-- C9: a creative-credit edge whose source or target id is absent from the
node index is dropped silently: it contributes to no credit record, no
qualifying-artist determination and no collaborator set, and the pipeline
output on a graph containing it equals the output with the edge removed. -/
theorem claim_C9 (ns : List Node) (e : Edge) (es1 es2 : List Edge)
    (h : findNode ns e.source = none ∨ findNode ns e.target = none) :
    credits ⟨ns, es1 ++ e :: es2⟩ = credits ⟨ns, es1 ++ es2⟩ ∧
    artistsWithOceanus ⟨ns, es1 ++ e :: es2⟩ =
      artistsWithOceanus ⟨ns, es1 ++ es2⟩ ∧
    (∀ w, workToPeople ⟨ns, es1 ++ e :: es2⟩ w =
      workToPeople ⟨ns, es1 ++ es2⟩ w) ∧
    pipelineSeries ⟨ns, es1 ++ e :: es2⟩ = pipelineSeries ⟨ns, es1 ++ es2⟩ := by
  refine ⟨credits_dead ns e es1 es2 h, artistsWithOceanus_dead ns e es1 es2 h,
    fun w => workToPeople_dead ns e es1 es2 h w, ?_⟩
  unfold pipelineSeries
  rw [credits_dead ns e es1 es2 h]
  congr 1
  funext w
  exact workToPeople_dead ns e es1 es2 h w

/-- Witness for C9: the dangling edge `0 → 99` of `danglingGraph` is dropped
and the pipeline output equals that of `goodGraph`. -/
theorem claim_C9_witness :
    (findNode okNodes 0 = none ∨ findNode okNodes 99 = none) ∧
    pipelineSeries danglingGraph = pipelineSeries goodGraph :=
  ⟨Or.inr (by decide),
   (claim_C9 okNodes { edgeType := "PerformerOf", source := 0, target := 99 }
     [{ edgeType := "PerformerOf", source := 0, target := 1 }] []
     (Or.inr (by decide))).2.2.2⟩
